import Mathlib

/-!
# Verification of the `bigip_virtual_server` convergence module

Shallow embedding of `network/f5/bigip_virtual_server.py`: the per-attribute
reconcilers (`set_destination`, `set_pool`, `set_description`, `set_snat`,
`set_profiles`), the existence guard (`vs_exists`), create/delete
(`vs_create`, `vs_remove`) and the `main` state machine, together with
theorems about port validation, race handling, check-mode behaviour,
idempotence and frame properties.

The remote appliance (the iControl API behind `api.LocalLB.VirtualServer`)
is an external collaborator, not part of the repository.  Its behaviour is
modelled from the spec: a single named virtual-server resource whose
attributes are read and written by the calls the module issues, with
resource names and addresses globally qualified by the partition prefix
(spec section 3) and with the implicit base TCP profile `/Common/tcp`
attached on creation and protected (spec sections 3 and 4.2).
-/

namespace BVS

/-- Substring test on character lists: does the needle occur as a prefix. -/
def leadsWith : List Char → List Char → Bool
  | [], _ => true
  | _ :: _, [] => false
  | a :: as, b :: bs => a == b && leadsWith as bs

/-- Substring test on character lists: does the needle occur anywhere. -/
def hasSubList (needle : List Char) : List Char → Bool
  | [] => leadsWith needle []
  | c :: rest => leadsWith needle (c :: rest) || hasSubList needle rest

/-- Python's `needle in haystack` substring test, used by the module to
classify remote error messages (`"was not found" in str(e)` and
`"already exists" in str(e)`). -/
def strContains (haystack needle : String) : Bool :=
  hasSubList needle.data haystack.data

/-- Python truthiness for an optional string: `not destination` is true
exactly when the value is `None` or the empty string. -/
def pyFalsyStr : Option String → Bool
  | none => true
  | some s => s == ""

/-- Python truthiness for an optional integer: `not port` is true exactly
when the value is `None` or `0`. -/
def pyFalsyInt : Option Int → Bool
  | none => true
  | some i => i == 0

/-- Python's `name.startswith` applied to the slash character. -/
def startsWithSlash (s : String) : Bool :=
  match s.data with
  | [] => false
  | c :: _ => c == '/'

/-- `fq_name` from `ansible.module_utils.f5` applied to a plain string:
qualify `name` with the partition unless it already starts with `/`. -/
def fq_name_str (partition name : String) : String :=
  if startsWithSlash name then name else "/" ++ partition ++ "/" ++ name

/-- `fq_name` from `ansible.module_utils.f5`: `None` passes through. -/
def fq_name (partition : String) : Option String → Option String
  | none => none
  | some n => some (fq_name_str partition n)

/-- `fq_list_names` from `ansible.module_utils.f5`: `None` passes through,
otherwise every element is qualified by `fq_name`. -/
def fq_list_names (partition : String) : Option (List String) → Option (List String)
  | none => none
  | some l => some (l.map (fq_name_str partition))

/-- The module's port guard, line 303 of the source, translated verbatim:
Python's chained comparison `1 > port > 65535` means
`1 > port and port > 65535`.  (For `port=None` the first comparison is a
Python-2 `None` comparison and the chain is still false.) -/
def portGuardRejects : Option Int → Bool
  | none => false
  | some p => decide (1 > p) && decide (p > 65535)

/-- A remote error: `bigsuds.OperationFailed` carries `operationFailed =
true`; any other exception from the client has it `false`.  `msg` is
`str(e)`. -/
structure Err where
  operationFailed : Bool
  msg : String
deriving DecidableEq, Repr

/-- A profile dictionary as built by the module:
`{'profile_context': 'PROFILE_CONTEXT_TYPE_ALL', 'profile_name': x}`. -/
structure ProfileEntry where
  profile_context : String
  profile_name : String
deriving DecidableEq, Repr

def mkProfileEntry (x : String) : ProfileEntry :=
  { profile_context := "PROFILE_CONTEXT_TYPE_ALL", profile_name := x }

/-- One remote call issued through `api.LocalLB.VirtualServer` or
`api.System.Session`, recorded with its payload. -/
inductive RemoteCall where
  | getObjectStatus (vs : String)
  | create (name : String) (address : String) (port : Int) (pool : Option String)
  | deleteVirtualServer (name : String)
  | getProfile (name : String)
  | removeProfile (name : String) (profiles : List ProfileEntry)
  | addProfile (name : String) (profiles : List ProfileEntry)
  | getSourceAddressTranslationType (name : String)
  | setSourceAddressTranslationNone (name : String)
  | setSourceAddressTranslationAutomap (name : String)
  | getDefaultPoolName (name : String)
  | setDefaultPoolName (name : String) (pool : String)
  | getDestinationV2 (name : String)
  | setDestinationV2 (name : String) (address : String) (port : Int)
  | getDescription (name : String)
  | setDescription (name : String) (description : String)
  | startTransaction
  | submitTransaction
deriving DecidableEq, Repr

/-- Whether a remote call mutates the appliance's configuration (the
getters and the existence status lookup are read-only). -/
def RemoteCall.isMutating : RemoteCall → Bool
  | .getObjectStatus _ => false
  | .create _ _ _ _ => true
  | .deleteVirtualServer _ => true
  | .getProfile _ => false
  | .removeProfile _ _ => true
  | .addProfile _ _ => true
  | .getSourceAddressTranslationType _ => false
  | .setSourceAddressTranslationNone _ => true
  | .setSourceAddressTranslationAutomap _ => true
  | .getDefaultPoolName _ => false
  | .setDefaultPoolName _ _ => true
  | .getDestinationV2 _ => false
  | .setDestinationV2 _ _ _ => true
  | .getDescription _ => false
  | .setDescription _ _ => true
  | .startTransaction => true
  | .submitTransaction => true

/-- Modelled from the spec: the remote virtual-server resource's mutable
attributes (spec section 3, `VirtualServerState`): destination address and
port, default pool, description, source-address-translation mode
(`SRC_TRANS_NONE` / `SRC_TRANS_AUTOMAP`), attached profile names. -/
structure VSState where
  address : String
  port : Int
  pool : Option String
  description : Option String
  snat_type : String
  profiles : List String
deriving DecidableEq, Repr

/-- Fault schedule for the remote client, modelling the concurrency hazards
of spec section 5: `raceAfterStatus` lets a concurrent actor create or
delete the resource immediately after the existence-status call;
`createErr` / `deleteErr` inject an arbitrary remote failure into the
create / delete call. -/
structure Faults where
  raceAfterStatus : Option (Option VSState)
  createErr : Option Err
  deleteErr : Option Err
deriving DecidableEq, Repr

def noFaults : Faults :=
  { raceAfterStatus := none, createErr := none, deleteErr := none }

/-- The environment a run threads through: the remote resource (at most
one, the single name the invocation manages), the partition context used
by the modelled appliance to qualify stored names, the fault schedule, and
the trace of remote calls issued so far. -/
structure Env where
  vs : Option VSState
  partition : String
  faults : Faults
  trace : List RemoteCall
deriving DecidableEq, Repr

/-- Outcome of a stateful step: a value or a raised exception, with the
environment as left at that point. -/
inductive Res (α : Type) where
  | ok (a : α) (env : Env)
  | err (e : Err) (env : Env)

abbrev Step (α : Type) := Env → Res α

def pushCall (c : RemoteCall) (env : Env) : Env :=
  { env with trace := env.trace ++ [c] }

/-- The "was not found" error raised by the modelled appliance for
operations on a missing virtual server. -/
def notFoundErr : Err :=
  { operationFailed := true, msg := "The requested Virtual Server was not found" }

/-- The "already exists" error raised by the modelled appliance when
`create` hits an existing virtual server. -/
def alreadyExistsErr : Err :=
  { operationFailed := true, msg := "The requested Virtual Server already exists" }

/-- `api.LocalLB.VirtualServer.get_object_status`: succeeds when the
resource exists, raises `OperationFailed ... was not found` otherwise.
Modelled from the spec: immediately after the status call a concurrent
actor may create or delete the resource (spec section 5 race window). -/
def api_get_object_status (name : String) : Step Unit := fun env =>
  let env0 := pushCall (.getObjectStatus name) env
  let found := env0.vs.isSome
  let env1 :=
    match env0.faults.raceAfterStatus with
    | some newVs => { env0 with vs := newVs }
    | none => env0
  if found then .ok () env1 else .err notFoundErr env1

/-- `vs_exists` (source lines 163-175): status lookup; an
`OperationFailed` whose message contains "was not found" means false, any
other failure propagates. -/
def vs_existsS (name : String) : Step Bool := fun env =>
  match api_get_object_status name env with
  | .ok _ env => .ok true env
  | .err e env =>
    if e.operationFailed && strContains e.msg "was not found" then .ok false env
    else .err e env

/-- Modelled from the spec: the virtual server as established by the
remote create call (spec section 4.2) — identity, destination (qualified
by the partition prefix, spec section 3), port and pool from the call,
default source translation, no description, and the implicit base TCP
profile attached (stored under its qualified name `/Common/tcp`). -/
def createdVS (partition destination : String) (port : Int)
    (pool : Option String) : VSState :=
  { address := fq_name_str partition destination
    port := port
    pool := pool
    description := none
    snat_type := "SRC_TRANS_NONE"
    profiles := ["/Common/tcp"] }

/-- `api.LocalLB.VirtualServer.create`: raises "already exists" when the
resource is present, otherwise establishes it. -/
def api_create (name destination : String) (port : Int)
    (pool : Option String) : Step Unit := fun env =>
  let env := pushCall (.create name destination port pool) env
  match env.faults.createErr with
  | some e => .err e env
  | none =>
    match env.vs with
    | some _ => .err alreadyExistsErr env
    | none => .ok () { env with vs := some (createdVS env.partition destination port pool) }

/-- `vs_create` (source lines 177-188): wraps the remote create call in
`try ... except Exception, e: print e.args` — every error, including the
"already exists" race, is printed and discarded, never re-raised. -/
def vs_createS (name destination : String) (port : Int)
    (pool : Option String) : Step Unit := fun env =>
  match api_create name destination port pool env with
  | .ok _ env => .ok () env
  | .err _ env => .ok () env

/-- `vs_remove` (source lines 190-191): the bare remote delete call; the
modelled appliance raises "was not found" when the resource is absent. -/
def vs_removeS (name : String) : Step Unit := fun env =>
  let env := pushCall (.deleteVirtualServer name) env
  match env.faults.deleteErr with
  | some e => .err e env
  | none =>
    match env.vs with
    | none => .err notFoundErr env
    | some _ => .ok () { env with vs := none }

/-- `set_destination` (source lines 253-259) as a pure function of the
current resource: read the current destination, and issue the setter only
when both desired values are present and at least one differs.  Returns
the changed flag, the resulting resource, and the calls issued. -/
def set_destination (name : String) (destination : Option String)
    (port : Option Int) (v : VSState) : Bool × VSState × List RemoteCall :=
  match destination, port with
  | some d, some p =>
    if d ≠ v.address ∨ p ≠ v.port then
      (true, { v with address := d, port := p },
        [.getDestinationV2 name, .setDestinationV2 name d p])
    else (false, v, [.getDestinationV2 name])
  | _, _ => (false, v, [.getDestinationV2 name])

/-- `set_pool` (source lines 240-246): issue the setter only when the
desired pool is not `None` and differs from the current default pool. -/
def set_pool (name : String) (pool : Option String) (v : VSState) :
    Bool × VSState × List RemoteCall :=
  match pool with
  | none => (false, v, [.getDefaultPoolName name])
  | some p =>
    if some p ≠ v.pool then
      (true, { v with pool := some p },
        [.getDefaultPoolName name, .setDefaultPoolName name p])
    else (false, v, [.getDefaultPoolName name])

/-- `set_description` (source lines 265-271): issue the setter only when
the desired description is not `None` and differs from the current one. -/
def set_description (name : String) (description : Option String) (v : VSState) :
    Bool × VSState × List RemoteCall :=
  match description with
  | none => (false, v, [.getDescription name])
  | some d =>
    if v.description ≠ some d then
      (true, { v with description := some d },
        [.getDescription name, .setDescription name d])
    else (false, v, [.getDescription name])

/-- `set_snat` (source lines 220-231): read the current translation type
first; `None` desired maps to `SRC_TRANS_NONE`, `Automap` to
`SRC_TRANS_AUTOMAP`; an unset (`None`-valued) snat returns false; any
other string falls through both tests and returns false. -/
def set_snat (name : String) (snat : Option String) (v : VSState) :
    Bool × VSState × List RemoteCall :=
  match snat with
  | none => (false, v, [.getSourceAddressTranslationType name])
  | some s =>
    if s = "None" ∧ v.snat_type ≠ "SRC_TRANS_NONE" then
      (true, { v with snat_type := "SRC_TRANS_NONE" },
        [.getSourceAddressTranslationType name, .setSourceAddressTranslationNone name])
    else if s = "Automap" ∧ v.snat_type ≠ "SRC_TRANS_AUTOMAP" then
      (true, { v with snat_type := "SRC_TRANS_AUTOMAP" },
        [.getSourceAddressTranslationType name, .setSourceAddressTranslationAutomap name])
    else (false, v, [.getSourceAddressTranslationType name])

/-- The `to_add_profiles` list of `set_profiles` (source lines 202-205):
the desired profiles not currently attached, as profile dictionaries. -/
def to_add_list (pl current : List String) : List ProfileEntry :=
  (pl.filter (fun x => decide (¬ x ∈ current))).map mkProfileEntry

/-- The `to_del_profiles` list of `set_profiles` (source lines 206-209):
the currently attached profiles that are neither desired nor the protected
`/Common/tcp` base profile, as profile dictionaries. -/
def to_del_list (pl current : List String) : List ProfileEntry :=
  (current.filter (fun x => decide (¬ x ∈ pl ∧ x ≠ "/Common/tcp"))).map mkProfileEntry

/-- `set_profiles` (source lines 198-217): `None` desired list returns
false with no remote call at all; otherwise read the current profiles,
build `to_add` and `to_del`, issue the remove call first and the add call
second, each only when non-empty, and return whether either was issued.
The source's two sequential `if len(...)>0` blocks are flattened into the
four combinations; the modelled appliance drops the removed profile names
and appends the added ones. -/
def set_profiles (name : String) (profiles_list : Option (List String))
    (v : VSState) : Bool × VSState × List RemoteCall :=
  match profiles_list with
  | none => (false, v, [])
  | some pl =>
    let to_add_profiles := to_add_list pl v.profiles
    let to_del_profiles := to_del_list pl v.profiles
    if to_del_profiles = [] then
      if to_add_profiles = [] then
        (false, v, [RemoteCall.getProfile name])
      else
        (true,
          { v with profiles := v.profiles ++ to_add_profiles.map ProfileEntry.profile_name },
          [RemoteCall.getProfile name, RemoteCall.addProfile name to_add_profiles])
    else
      if to_add_profiles = [] then
        (true,
          { v with profiles :=
              (v.profiles.filter
                (fun x => decide (¬ x ∈ to_del_profiles.map ProfileEntry.profile_name))) },
          [RemoteCall.getProfile name, RemoteCall.removeProfile name to_del_profiles])
      else
        (true,
          { v with profiles :=
              (v.profiles.filter
                (fun x => decide (¬ x ∈ to_del_profiles.map ProfileEntry.profile_name)))
                ++ to_add_profiles.map ProfileEntry.profile_name },
          [RemoteCall.getProfile name, RemoteCall.removeProfile name to_del_profiles,
            RemoteCall.addProfile name to_add_profiles])

/-- Lift a pure reconciler to a step: the getter it starts with raises
"was not found" when the resource is missing (`firstCall` is that getter's
trace entry); otherwise apply the reconciler to the live resource. -/
def liftReconciler (firstCall : RemoteCall)
    (core : VSState → Bool × VSState × List RemoteCall) : Step Bool := fun env =>
  match env.vs with
  | none => .err notFoundErr (pushCall firstCall env)
  | some v =>
    let r := core v
    .ok r.1 { env with vs := some r.2.1, trace := env.trace ++ r.2.2 }

def set_destinationS (name : String) (destination : Option String)
    (port : Option Int) : Step Bool :=
  liftReconciler (.getDestinationV2 name) (set_destination name destination port)

def set_poolS (name : String) (pool : Option String) : Step Bool :=
  liftReconciler (.getDefaultPoolName name) (set_pool name pool)

def set_descriptionS (name : String) (description : Option String) : Step Bool :=
  liftReconciler (.getDescription name) (set_description name description)

def set_snatS (name : String) (snat : Option String) : Step Bool :=
  liftReconciler (.getSourceAddressTranslationType name) (set_snat name snat)

/-- `set_profiles` issues no call at all when the desired list is `None`
(the early return precedes `get_profiles`), so its lift special-cases
that. -/
def set_profilesS (name : String) (profiles_list : Option (List String)) :
    Step Bool := fun env =>
  match profiles_list with
  | none => .ok false env
  | some pl => liftReconciler (.getProfile name) (set_profiles name (some pl)) env

/-- The parsed invocation parameters (source lines 276-301): `state` has
argument-spec choices present/absent/disabled/enabled, `name` is required,
everything else optional.  `check_mode` is the host framework's dry-run
flag. -/
structure Params where
  state : String
  name : String
  destination : Option String
  port : Option Int
  all_profiles : Option (List String)
  pool : Option String
  description : Option String
  snat : Option String
  partition : String
  check_mode : Bool
deriving DecidableEq, Repr

/-- The module's terminal report: `module.exit_json` with the `changed`
flag and the optional `deleted` field, or `module.fail_json` with a
message. -/
inductive ModuleResult where
  | exitJson (changed : Bool) (deleted : Option String)
  | failJson (msg : String)
deriving DecidableEq, Repr

/-- The update-existing-resource path (source lines 355-365): inside a
remote transaction, run the destination+port, pool, description, SNAT and
profile reconcilers in that order and OR their results onto the current
`changed` flag; in check mode report `changed=true` without calling the
client. -/
def updatePath (p : Params) (name : String) (destination : Option String)
    (port : Option Int) (pool : Option String) (description : Option String)
    (snat : Option String) (all_profiles : Option (List String))
    (changed0 : Bool) : Step ModuleResult := fun env =>
  if p.check_mode = false then
    let env := pushCall .startTransaction env
    match set_destinationS name (fq_name p.partition destination) port env with
    | .err e env => .err e env
    | .ok c1 env =>
      match set_poolS name pool env with
      | .err e env => .err e env
      | .ok c2 env =>
        match set_descriptionS name description env with
        | .err e env => .err e env
        | .ok c3 env =>
          match set_snatS name snat env with
          | .err e env => .err e env
          | .ok c4 env =>
            match set_profilesS name all_profiles env with
            | .err e env => .err e env
            | .ok c5 env =>
              let env := pushCall .submitTransaction env
              .ok (.exitJson (changed0 || c1 || c2 || c3 || c4 || c5) none) env
  else .ok (.exitJson true none) env

/-- The body of `main`'s big `try` (source lines 306-378), branching on the
desired state.  `fail_json` raises `SystemExit`, which Python's
`except Exception` does not catch, so validation failures are returned as
results here rather than as `Err`s. -/
def mainTry (p : Params) (name : String) (destination : Option String)
    (port : Option Int) (all_profiles : Option (List String))
    (pool : Option String) (description : Option String)
    (snat : Option String) : Step ModuleResult := fun env =>
  if p.state = "absent" then
    if p.check_mode = false then
      match vs_existsS name env with
      | .err e env => .err e env
      | .ok ex env =>
        if ex then
          match vs_removeS name env with
          | .ok _ env => .ok (.exitJson true (some name)) env
          | .err e env =>
            if e.operationFailed && strContains e.msg "was not found" then
              .ok (.exitJson false none) env
            else .err e env
        else .ok (.exitJson false none) env
    else .ok (.exitJson true none) env
  else if p.state = "present" then
    match vs_existsS name env with
    | .err e env => .err e env
    | .ok ex env =>
      if ex then
        updatePath p name destination port pool description snat all_profiles false env
      else
        if pyFalsyStr destination || pyFalsyInt port then
          .ok (.failJson "both destination and port must be supplied to create a VS") env
        else if p.check_mode = false then
          match vs_createS name (destination.getD "") (port.getD 0) pool env with
          | .err e env =>
            if e.operationFailed && strContains e.msg "already exists" then
              updatePath p name destination port pool description snat all_profiles false env
            else .err e env
          | .ok _ env =>
            match set_profilesS name all_profiles env with
            | .err e env => .err e env
            | .ok _ env =>
              match set_snatS name snat env with
              | .err e env => .err e env
              | .ok _ env =>
                match set_descriptionS name description env with
                | .err e env => .err e env
                | .ok _ env => .ok (.exitJson true none) env
        else .ok (.exitJson true none) env
  else if p.state = "disabled" ∨ p.state = "enabled" then
    if p.check_mode = false then .ok (.exitJson false none) env
    else .ok (.exitJson true none) env
  else .ok (.exitJson false none) env

/-- `main` (source lines 274-383): qualify the inputs, apply the (dead)
port guard, run the state machine under the top-level exception handler
that converts any uncaught remote error into
`fail_json("received exception: ...")`. -/
def main (p : Params) (env : Env) : ModuleResult × Env :=
  let name := fq_name_str p.partition p.name
  let destination := p.destination
  let port := p.port
  let all_profiles := fq_list_names p.partition p.all_profiles
  let pool := fq_name p.partition p.pool
  let description := p.description
  let snat := p.snat
  if portGuardRejects port then
    (.failJson "valid ports must be in range 1 - 65535", env)
  else
    match mainTry p name destination port all_profiles pool description snat env with
    | .ok r env => (r, env)
    | .err e env => (.failJson ("received exception: " ++ e.msg), env)

/-- Run one invocation against an initial remote resource and fault
schedule, starting with an empty call trace; the partition context of the
modelled appliance is the invocation's partition. -/
def runModule (p : Params) (vs : Option VSState) (f : Faults) : ModuleResult × Env :=
  main p { vs := vs, partition := p.partition, faults := f, trace := [] }

/-! ## Fixtures and proof-level definitions -/

/-- A concrete remote resource used by the closed theorems. -/
def vsFixture : VSState :=
  { address := "/Common/10.0.0.9", port := 80, pool := none, description := none,
    snat_type := "SRC_TRANS_NONE", profiles := ["/Common/tcp"] }

/-- A concrete parameter set (state absent, live mode) used by the closed
theorems. -/
def baseParams : Params :=
  { state := "absent", name := "vs1",
    destination := none, port := none,
    all_profiles := none, pool := none, description := none, snat := none,
    partition := "Common", check_mode := false }

/-- Parameters for the create-race run: desired present, destination and
port supplied, live mode. -/
def c2Params : Params :=
  { baseParams with
    state := "present",
    destination := some "10.0.0.1", port := some 443 }

/-- Fault schedule for the create race: the resource does not exist at the
existence check, and a concurrent actor creates it immediately after, so
the module's remote create call fails with "already exists". -/
def c2Faults : Faults := { noFaults with raceAfterStatus := some (some vsFixture) }

/-- Parameters with desired state present, a port but no destination. -/
def c5Params : Params := { baseParams with state := "present", port := some 443 }

/-- The destination+port reconciler's no-op condition: whenever both
desired values are present they match the current destination. -/
def destReady (destination : Option String) (port : Option Int) (v : VSState) : Prop :=
  ∀ dv pv, destination = some dv → port = some pv → v.address = dv ∧ v.port = pv

/-- The pool reconciler's no-op condition. -/
def poolReady (pool : Option String) (v : VSState) : Prop :=
  ∀ q, pool = some q → v.pool = some q

/-- The description reconciler's no-op condition. -/
def descReady (description : Option String) (v : VSState) : Prop :=
  ∀ dd, description = some dd → v.description = some dd

/-- The SNAT reconciler's no-op condition: a recognized desired mode
matches the current translation type. -/
def snatReady (snat : Option String) (v : VSState) : Prop :=
  (snat = some "None" → v.snat_type = "SRC_TRANS_NONE") ∧
  (snat = some "Automap" → v.snat_type = "SRC_TRANS_AUTOMAP")

/-- The profile reconciler's no-op condition: every desired profile is
attached and every attached profile is desired or the protected base. -/
def profilesReady (profiles_list : Option (List String)) (v : VSState) : Prop :=
  ∀ pl, profiles_list = some pl →
    (∀ x ∈ pl, x ∈ v.profiles) ∧ (∀ x ∈ v.profiles, x ∈ pl ∨ x = "/Common/tcp")

/-- The remote resource state after one live update pass (transition 3). -/
def updateChain (p : Params) (v : VSState) : VSState :=
  let nm := fq_name_str p.partition p.name
  (set_profiles nm (fq_list_names p.partition p.all_profiles)
    (set_snat nm p.snat
      (set_description nm p.description
        (set_pool nm (fq_name p.partition p.pool)
          (set_destination nm (fq_name p.partition p.destination) p.port v).2.1).2.1).2.1).2.1).2.1

/-- The remote resource state after a live create pass (transition 2):
the created resource followed by the profile, SNAT and description
reconcilers, in the order `main` runs them after `vs_create`. -/
def createChain (p : Params) : VSState :=
  let nm := fq_name_str p.partition p.name
  (set_description nm p.description
    (set_snat nm p.snat
      (set_profiles nm (fq_list_names p.partition p.all_profiles)
        (createdVS p.partition (p.destination.getD "") (p.port.getD 0)
          (fq_name p.partition p.pool))).2.1).2.1).2.1

/-! ## Shared helper lemmas and fixtures -/

/-- The port guard is unsatisfiable for every input: no integer is both
below 1 and above 65535. -/
theorem portGuard_eq_false (q : Option Int) : portGuardRejects q = false := by
  cases q with
  | none => rfl
  | some p =>
    simp only [portGuardRejects, Bool.and_eq_false_iff, decide_eq_false_iff_not, not_lt]
    omega

/-- The modelled "was not found" error is classified as such by the
module's substring test. -/
theorem notFound_classified :
    (notFoundErr.operationFailed && strContains notFoundErr.msg "was not found") = true := by
  decide

/-- The modelled "already exists" error is classified as such by the
module's substring test. -/
theorem alreadyExists_classified :
    (alreadyExistsErr.operationFailed && strContains alreadyExistsErr.msg "already exists") = true := by
  decide

/-! ## C1: port validation -/

/-- **C1.** The claim says port validation rejects exactly the ports
outside 1–65535 before any remote call.  The code's guard
`if 1 > port > 65535` is Python chained comparison, meaning
`1 > port and port > 65535`, which no integer satisfies: the guard is dead
code and no port is ever rejected.  In particular port 0 and port 65536,
which the claim (and the module's own failure message
"valid ports must be in range 1 - 65535") require to be rejected, are
accepted and the invocation proceeds to the remote existence check. -/
theorem c1_port_guard_never_rejects :
    portGuardRejects (some 0) = false ∧
    portGuardRejects (some 65536) = false ∧
    (runModule { baseParams with port := some 0 } none noFaults).1
      ≠ ModuleResult.failJson "valid ports must be in range 1 - 65535" ∧
    (runModule { baseParams with port := some 0 } none noFaults).2.trace
      = [RemoteCall.getObjectStatus "/Common/vs1"] ∧
    ∀ q : Option Int, portGuardRejects q = false :=
  ⟨rfl, rfl, by decide, by decide, portGuard_eq_false⟩

theorem c1_port_guard_never_rejects_witness :
    portGuardRejects (some 1) = false :=
  c1_port_guard_never_rejects.2.2.2.2 (some 1)

/-! ## C2: create race -/

/-- **C2.** The claim says that when the existence check reports absent
and the create call then fails with "already exists", the controller
transitions into the update-existing path (transaction plus all
reconcilers).  It does not: `vs_create` wraps the remote create call in
`except Exception, e: print e.args`, discarding every error, so `main`'s
"already exists" handler (source lines 341-343) is unreachable.  The run
indeed does not fail, but it continues down the fresh-create path:
`changed=true`, only the profile/SNAT/description reconcilers run, and no
transaction is opened. -/
theorem c2_create_race_skips_update_path :
    (runModule c2Params none c2Faults).1 = ModuleResult.exitJson true none ∧
    RemoteCall.startTransaction ∉ (runModule c2Params none c2Faults).2.trace ∧
    (runModule c2Params none c2Faults).2.trace =
      [RemoteCall.getObjectStatus "/Common/vs1",
        RemoteCall.create "/Common/vs1" "10.0.0.1" 443 none,
        RemoteCall.getSourceAddressTranslationType "/Common/vs1",
        RemoteCall.getDescription "/Common/vs1"] :=
  ⟨by decide, by decide, by decide⟩

/-! ## C3: check-mode counterexample -/

/-- **C3 counterexample.** With desired state absent and the resource
absent, a live run reports `changed=false` but a check-mode run against
the same remote state reports `changed=true`: check mode does not report
the `changed` value a live run would report. -/
theorem c3_checkmode_changed_mismatch :
    (runModule { baseParams with check_mode := true } none noFaults).1
      = ModuleResult.exitJson true none ∧
    (runModule baseParams none noFaults).1 = ModuleResult.exitJson false none :=
  ⟨by decide, by decide⟩

/-! ## C5: validation-before-remote-call counterexample -/

/-- **C5 counterexample.** With desired state present, the resource
absent, and no destination supplied, the module does fail with the
validation message — but only after the remote existence-status call has
already been issued (it is what established that the resource does not
exist), so the failure is not raised "before any remote call". -/
theorem c5_validation_after_remote_call :
    (runModule c5Params none noFaults).1
      = ModuleResult.failJson "both destination and port must be supplied to create a VS" ∧
    (runModule c5Params none noFaults).2.trace
      = [RemoteCall.getObjectStatus "/Common/vs1"] :=
  ⟨by decide, by decide⟩

/-- **C3 amended.** Check mode never issues a mutating remote call (for
any desired state, remote state and fault schedule the recorded trace is
free of mutating calls), and whenever a check-mode run exits successfully
for one of the four accepted states it reports `changed=true`
unconditionally — which is not always the value a live run would report
(see the counterexample). -/
theorem c3_amended (p : Params) (s : Option VSState) (f : Faults)
    (hchk : p.check_mode = true) :
    (∀ c ∈ (runModule p s f).2.trace, c.isMutating = false) ∧
    ((p.state = "present" ∨ p.state = "absent" ∨ p.state = "enabled" ∨ p.state = "disabled") →
      ∀ ch d, (runModule p s f).1 = ModuleResult.exitJson ch d → ch = true) := by
  by_cases habs : p.state = "absent"
  · constructor
    · simp [runModule, main, portGuard_eq_false, habs, hchk, mainTry]
    · intro _ ch d h
      simp [runModule, main, portGuard_eq_false, habs, hchk, mainTry] at h
      exact h.1
  · by_cases hpres : p.state = "present"
    · cases s with
      | some w =>
        cases hra : f.raceAfterStatus with
        | none =>
          constructor
          · simp [runModule, main, portGuard_eq_false, habs, hpres, hchk, mainTry,
              vs_existsS, api_get_object_status, pushCall, hra, updatePath,
              RemoteCall.isMutating]
          · intro _ ch d h
            simp [runModule, main, portGuard_eq_false, habs, hpres, hchk, mainTry,
              vs_existsS, api_get_object_status, pushCall, hra, updatePath] at h
            exact h.1
        | some newVs =>
          constructor
          · simp [runModule, main, portGuard_eq_false, habs, hpres, hchk, mainTry,
              vs_existsS, api_get_object_status, pushCall, hra, updatePath,
              RemoteCall.isMutating]
          · intro _ ch d h
            simp [runModule, main, portGuard_eq_false, habs, hpres, hchk, mainTry,
              vs_existsS, api_get_object_status, pushCall, hra, updatePath] at h
            exact h.1
      | none =>
        cases hra : f.raceAfterStatus with
        | none =>
          by_cases hfal : (pyFalsyStr p.destination || pyFalsyInt p.port) = true
          · constructor
            · simp [runModule, main, portGuard_eq_false, habs, hpres, hchk, mainTry,
                vs_existsS, api_get_object_status, pushCall, hra, notFound_classified, hfal,
                RemoteCall.isMutating]
            · intro _ ch d h
              simp [runModule, main, portGuard_eq_false, habs, hpres, hchk, mainTry,
                vs_existsS, api_get_object_status, pushCall, hra, notFound_classified, hfal] at h
          · constructor
            · simp [runModule, main, portGuard_eq_false, habs, hpres, hchk, mainTry,
                vs_existsS, api_get_object_status, pushCall, hra, notFound_classified, hfal,
                RemoteCall.isMutating]
            · intro _ ch d h
              simp [runModule, main, portGuard_eq_false, habs, hpres, hchk, mainTry,
                vs_existsS, api_get_object_status, pushCall, hra, notFound_classified, hfal] at h
              exact h.1
        | some newVs =>
          by_cases hfal : (pyFalsyStr p.destination || pyFalsyInt p.port) = true
          · constructor
            · simp [runModule, main, portGuard_eq_false, habs, hpres, hchk, mainTry,
                vs_existsS, api_get_object_status, pushCall, hra, notFound_classified, hfal,
                RemoteCall.isMutating]
            · intro _ ch d h
              simp [runModule, main, portGuard_eq_false, habs, hpres, hchk, mainTry,
                vs_existsS, api_get_object_status, pushCall, hra, notFound_classified, hfal] at h
          · constructor
            · simp [runModule, main, portGuard_eq_false, habs, hpres, hchk, mainTry,
                vs_existsS, api_get_object_status, pushCall, hra, notFound_classified, hfal,
                RemoteCall.isMutating]
            · intro _ ch d h
              simp [runModule, main, portGuard_eq_false, habs, hpres, hchk, mainTry,
                vs_existsS, api_get_object_status, pushCall, hra, notFound_classified, hfal] at h
              exact h.1
    · by_cases hen : p.state = "disabled" ∨ p.state = "enabled"
      · constructor
        · simp [runModule, main, portGuard_eq_false, habs, hpres, hchk, mainTry, hen]
        · intro _ ch d h
          simp [runModule, main, portGuard_eq_false, habs, hpres, hchk, mainTry, hen] at h
          exact h.1
      · constructor
        · simp [runModule, main, portGuard_eq_false, habs, hpres, hchk, mainTry, hen]
        · intro hmem ch d h
          rcases hmem with h1 | h1 | h1 | h1
          · exact absurd h1 hpres
          · exact absurd h1 habs
          · exact absurd (Or.inr h1) hen
          · exact absurd (Or.inl h1) hen

theorem c3_amended_witness :
    (∀ c ∈ (runModule { baseParams with check_mode := true } none noFaults).2.trace,
      c.isMutating = false) ∧
    ∀ ch d, (runModule { baseParams with check_mode := true } none noFaults).1
      = ModuleResult.exitJson ch d → ch = true := by
  have h := c3_amended { baseParams with check_mode := true } none noFaults rfl
  exact ⟨h.1, h.2 (Or.inr (Or.inl rfl))⟩

/-- **C5 amended.** With desired state present, the resource absent, and a
missing destination or port, the invocation fails with the local
validation message before any *mutating* remote call: the only remote call
issued is the read-only existence-status lookup, which necessarily
precedes the check. -/
theorem c5_amended (p : Params)
    (hstate : p.state = "present")
    (hmiss : p.destination = none ∨ p.port = none) :
    (runModule p none noFaults).1
      = ModuleResult.failJson "both destination and port must be supplied to create a VS" ∧
    (runModule p none noFaults).2.trace
      = [RemoteCall.getObjectStatus (fq_name_str p.partition p.name)] ∧
    ∀ c ∈ (runModule p none noFaults).2.trace, c.isMutating = false := by
  have hfal : (pyFalsyStr p.destination || pyFalsyInt p.port) = true := by
    rcases hmiss with h | h <;> simp [h, pyFalsyStr, pyFalsyInt]
  refine ⟨?_, ?_, ?_⟩ <;>
    simp [runModule, main, portGuard_eq_false, hstate, mainTry, vs_existsS,
      api_get_object_status, pushCall, noFaults, notFound_classified, hfal,
      RemoteCall.isMutating]

theorem c5_amended_witness :
    (runModule c5Params none noFaults).1
      = ModuleResult.failJson "both destination and port must be supplied to create a VS" :=
  (c5_amended c5Params rfl (Or.inl rfl)).1

/-! ## C6: delete race -/

/-- **C6.** With desired state absent, the existence check true, and the
delete call failing because a concurrent actor already removed the
resource ("was not found"), the invocation succeeds with `changed=false`;
a delete failure of any other class propagates as a fatal
`fail_json("received exception: ...")`. -/
theorem c6_delete_race (p : Params) (w : VSState) (e : Err)
    (hstate : p.state = "absent") (hchk : p.check_mode = false) :
    (runModule p (some w) { noFaults with raceAfterStatus := some none }).1
      = ModuleResult.exitJson false none ∧
    ((e.operationFailed && strContains e.msg "was not found") = false →
      (runModule p (some w) { noFaults with deleteErr := some e }).1
        = ModuleResult.failJson ("received exception: " ++ e.msg)) := by
  constructor
  · simp [runModule, main, portGuard_eq_false, hstate, hchk, mainTry, vs_existsS,
      api_get_object_status, vs_removeS, pushCall, noFaults, notFound_classified]
  · intro h
    simp [runModule, main, portGuard_eq_false, hstate, hchk, mainTry, vs_existsS,
      api_get_object_status, vs_removeS, pushCall, noFaults, h]

theorem c6_delete_race_witness :
    ((runModule baseParams (some vsFixture) { noFaults with raceAfterStatus := some none }).1
      = ModuleResult.exitJson false none) ∧
    ((runModule baseParams (some vsFixture)
        { noFaults with deleteErr := some { operationFailed := false, msg := "boom" } }).1
      = ModuleResult.failJson "received exception: boom") := by
  have h := c6_delete_race baseParams vsFixture { operationFailed := false, msg := "boom" } rfl rfl
  exact ⟨h.1, h.2 (by decide)⟩

/-! ## C10: unrecognized SNAT modes -/

/-- **C10.** For a snat string other than `None` and `Automap`, `set_snat`
raises no error, issues no setter call (only the read of the current
translation type), leaves the resource unchanged and returns false: the
unrecognized mode is silently ignored, not rejected. -/
theorem c10_snat_unrecognized (env : Env) (name s : String) (v : VSState)
    (hvs : env.vs = some v) (h1 : s ≠ "None") (h2 : s ≠ "Automap") :
    set_snatS name (some s) env
      = Res.ok false { env with
          trace := env.trace ++ [RemoteCall.getSourceAddressTranslationType name] } := by
  cases env with
  | mk vs partition faults trace =>
    cases hvs
    simp [set_snatS, liftReconciler, set_snat, h1, h2]

theorem c10_snat_unrecognized_witness :
    set_snatS "/Common/vs1" (some "SomethingElse")
        { vs := some vsFixture, partition := "Common", faults := noFaults, trace := [] }
      = Res.ok false
          { vs := some vsFixture, partition := "Common", faults := noFaults,
            trace := [RemoteCall.getSourceAddressTranslationType "/Common/vs1"] } := by
  have h := c10_snat_unrecognized
    { vs := some vsFixture, partition := "Common", faults := noFaults, trace := [] }
    "/Common/vs1" "SomethingElse" vsFixture rfl (by decide) (by decide)
  simpa using h

/-! ## C8: destination+port reconciler -/

/-- **C8.** `set_destination` compares the desired (destination, port)
pair against the current remote destination: the setter is issued, and
true returned, exactly when both desired values are present and at least
one differs from the current value; when either is unset it performs no
setter call, leaves the resource unchanged and returns false. -/
theorem c8_set_destination_pair (name : String) (d : Option String)
    (prt : Option Int) (v : VSState) :
    ((set_destination name d prt v).1 = true ↔
      ∃ dv pv, d = some dv ∧ prt = some pv ∧ (dv ≠ v.address ∨ pv ≠ v.port)) ∧
    ((∃ a b, RemoteCall.setDestinationV2 name a b ∈ (set_destination name d prt v).2.2) ↔
      (set_destination name d prt v).1 = true) ∧
    ((d = none ∨ prt = none) →
      set_destination name d prt v = (false, v, [RemoteCall.getDestinationV2 name])) := by
  cases d with
  | none => simp [set_destination]
  | some dv =>
    cases prt with
    | none => simp [set_destination]
    | some pv =>
      by_cases h : dv ≠ v.address ∨ pv ≠ v.port
      · refine ⟨by simp [set_destination, h], by simp [set_destination, h], by simp⟩
      · refine ⟨by simp [set_destination, h], by simp [set_destination, h], by simp⟩

theorem c8_set_destination_pair_witness :
    ((set_destination "/Common/vs1" (some "/Common/10.0.0.1") (some 443) vsFixture).1 = true ↔
      ∃ dv pv, (some "/Common/10.0.0.1") = some dv ∧ (some (443 : Int)) = some pv ∧
        (dv ≠ vsFixture.address ∨ pv ≠ vsFixture.port)) :=
  (c8_set_destination_pair "/Common/vs1" (some "/Common/10.0.0.1") (some 443) vsFixture).1

/-! ## C9: pool and description frame properties -/

/-- **C9.** `set_pool` and `set_description` issue their setter only when
the desired value is non-`None`: an unset pool or description is a no-op
that leaves the current remote value unchanged, and no input can unset an
existing pool or description (the resulting attribute is still set after
any invocation of the reconciler). -/
theorem c9_pool_description_frame (name : String) (v : VSState) :
    set_pool name none v = (false, v, [RemoteCall.getDefaultPoolName name]) ∧
    set_description name none v = (false, v, [RemoteCall.getDescription name]) ∧
    (∀ q, (∃ x, RemoteCall.setDefaultPoolName name x ∈ (set_pool name q v).2.2) →
      q.isSome = true) ∧
    (∀ q, (∃ x, RemoteCall.setDescription name x ∈ (set_description name q v).2.2) →
      q.isSome = true) ∧
    (∀ q, v.pool.isSome = true → ((set_pool name q v).2.1.pool).isSome = true) ∧
    (∀ q, v.description.isSome = true →
      ((set_description name q v).2.1.description).isSome = true) := by
  refine ⟨by simp [set_pool], by simp [set_description], ?_, ?_, ?_, ?_⟩
  · intro q hq
    cases q with
    | none => simp [set_pool] at hq
    | some x => rfl
  · intro q hq
    cases q with
    | none => simp [set_description] at hq
    | some x => rfl
  · intro q hsome
    cases q with
    | none => simpa [set_pool] using hsome
    | some x =>
      by_cases h : some x ≠ v.pool
      · simp [set_pool, h]
      · simpa [set_pool, h] using hsome
  · intro q hsome
    cases q with
    | none => simpa [set_description] using hsome
    | some x =>
      by_cases h : v.description ≠ some x
      · simp [set_description, h]
      · simpa [set_description, h] using hsome

/-! ## C4: profile reconciliation -/

/-- Building a profile dictionary from a name is injective. -/
theorem mkProfileEntry_inj {a b : String} (h : mkProfileEntry a = mkProfileEntry b) : a = b := by
  simpa [mkProfileEntry] using h

theorem mem_map_mkProfileEntry {x : String} {l : List String} :
    mkProfileEntry x ∈ l.map mkProfileEntry ↔ x ∈ l := by
  constructor
  · intro h
    obtain ⟨a, ha, he⟩ := List.mem_map.1 h
    exact (mkProfileEntry_inj he) ▸ ha
  · intro h
    exact List.mem_map.2 ⟨x, h, rfl⟩

/-- **C4.** Profile reconciliation with desired list `pl` and current
profiles `v.profiles` issues one remove call for exactly the current
profiles that are neither desired nor the protected `/Common/tcp` base
profile (which is never removed, even when absent from `pl`), then one add
call for exactly the desired profiles not currently attached, removal
ordered before addition, each call made only when its set is non-empty;
it returns true iff at least one of the two sets is non-empty, and with
an unset (`None`) desired list it returns false with no remote call at
all. -/
theorem c4_set_profiles_spec (name : String) (pl : List String) (v : VSState) :
    set_profiles name none v = (false, v, []) ∧
    ∃ R A,
      (set_profiles name (some pl) v).2.2 =
        [RemoteCall.getProfile name]
          ++ (if R = [] then [] else [RemoteCall.removeProfile name R])
          ++ (if A = [] then [] else [RemoteCall.addProfile name A]) ∧
      (∀ x, mkProfileEntry x ∈ R ↔ x ∈ v.profiles ∧ x ∉ pl ∧ x ≠ "/Common/tcp") ∧
      (∀ e ∈ R, e.profile_name ≠ "/Common/tcp") ∧
      (∀ x, mkProfileEntry x ∈ A ↔ x ∈ pl ∧ x ∉ v.profiles) ∧
      ((set_profiles name (some pl) v).1 = true ↔ (R ≠ [] ∨ A ≠ [])) := by
  refine ⟨rfl, ⟨to_del_list pl v.profiles, to_add_list pl v.profiles, ?_, ?_, ?_, ?_, ?_⟩⟩
  · by_cases hR : to_del_list pl v.profiles = [] <;>
      by_cases hA : to_add_list pl v.profiles = [] <;>
      simp only [set_profiles, hR, hA, if_pos, if_neg, if_true, if_false, ite_true, ite_false,
        not_false_iff] <;> rfl
  · intro x
    rw [to_del_list, mem_map_mkProfileEntry, List.mem_filter]
    simp
  · intro e he
    obtain ⟨a, ha, rfl⟩ := List.mem_map.1 he
    have h2 := (List.mem_filter.1 ha).2
    simp only [decide_eq_true_eq] at h2
    simp [mkProfileEntry, h2.2]
  · intro x
    rw [to_add_list, mem_map_mkProfileEntry, List.mem_filter]
    simp
  · by_cases hR : to_del_list pl v.profiles = [] <;>
      by_cases hA : to_add_list pl v.profiles = [] <;>
      simp [set_profiles, hR, hA]

theorem c4_set_profiles_spec_witness :
    set_profiles "/Common/vs1" none vsFixture = (false, vsFixture, []) :=
  (c4_set_profiles_spec "/Common/vs1" [] vsFixture).1

/-! ## C7: idempotence

Infrastructure: frame lemmas (which fields each reconciler leaves
untouched), readiness predicates (the reconciler's no-op condition),
post lemmas (one application establishes readiness), no-op lemmas
(readiness makes the next application a no-op), and the chain of states a
live run produces. -/

theorem set_destination_frame (n : String) (d : Option String) (q : Option Int) (v : VSState) :
    ((set_destination n d q v).2.1).pool = v.pool ∧
    ((set_destination n d q v).2.1).description = v.description ∧
    ((set_destination n d q v).2.1).snat_type = v.snat_type ∧
    ((set_destination n d q v).2.1).profiles = v.profiles := by
  cases d with
  | none => exact ⟨rfl, rfl, rfl, rfl⟩
  | some dv =>
    cases q with
    | none => exact ⟨rfl, rfl, rfl, rfl⟩
    | some pv => by_cases h : dv ≠ v.address ∨ pv ≠ v.port <;> simp [set_destination, h]

theorem set_pool_frame (n : String) (q : Option String) (v : VSState) :
    ((set_pool n q v).2.1).address = v.address ∧
    ((set_pool n q v).2.1).port = v.port ∧
    ((set_pool n q v).2.1).description = v.description ∧
    ((set_pool n q v).2.1).snat_type = v.snat_type ∧
    ((set_pool n q v).2.1).profiles = v.profiles := by
  cases q with
  | none => exact ⟨rfl, rfl, rfl, rfl, rfl⟩
  | some x => by_cases h : some x ≠ v.pool <;> simp [set_pool, h]

theorem set_description_frame (n : String) (q : Option String) (v : VSState) :
    ((set_description n q v).2.1).address = v.address ∧
    ((set_description n q v).2.1).port = v.port ∧
    ((set_description n q v).2.1).pool = v.pool ∧
    ((set_description n q v).2.1).snat_type = v.snat_type ∧
    ((set_description n q v).2.1).profiles = v.profiles := by
  cases q with
  | none => exact ⟨rfl, rfl, rfl, rfl, rfl⟩
  | some x => by_cases h : v.description ≠ some x <;> simp [set_description, h]

theorem set_snat_frame (n : String) (s : Option String) (v : VSState) :
    ((set_snat n s v).2.1).address = v.address ∧
    ((set_snat n s v).2.1).port = v.port ∧
    ((set_snat n s v).2.1).pool = v.pool ∧
    ((set_snat n s v).2.1).description = v.description ∧
    ((set_snat n s v).2.1).profiles = v.profiles := by
  cases s with
  | none => exact ⟨rfl, rfl, rfl, rfl, rfl⟩
  | some x =>
    simp only [set_snat]
    split_ifs <;> simp

theorem set_profiles_frame (n : String) (ap : Option (List String)) (v : VSState) :
    ((set_profiles n ap v).2.1).address = v.address ∧
    ((set_profiles n ap v).2.1).port = v.port ∧
    ((set_profiles n ap v).2.1).pool = v.pool ∧
    ((set_profiles n ap v).2.1).description = v.description ∧
    ((set_profiles n ap v).2.1).snat_type = v.snat_type := by
  cases ap with
  | none => exact ⟨rfl, rfl, rfl, rfl, rfl⟩
  | some pl =>
    by_cases hR : to_del_list pl v.profiles = [] <;>
      by_cases hA : to_add_list pl v.profiles = [] <;>
      simp [set_profiles, hR, hA]

theorem set_destination_ready (n : String) (d : Option String) (q : Option Int) (v : VSState) :
    destReady d q ((set_destination n d q v).2.1) := by
  intro dv pv hd hq
  subst hd; subst hq
  by_cases h : dv ≠ v.address ∨ pv ≠ v.port
  · simp [set_destination, h]
  · push_neg at h
    simp [set_destination, h.1, h.2]

theorem set_pool_ready (n : String) (q : Option String) (v : VSState) :
    poolReady q ((set_pool n q v).2.1) := by
  intro x hx; subst hx
  by_cases h : some x ≠ v.pool
  · simp [set_pool, h]
  · push_neg at h
    simp [set_pool, h]

theorem set_description_ready (n : String) (q : Option String) (v : VSState) :
    descReady q ((set_description n q v).2.1) := by
  intro x hx; subst hx
  by_cases h : v.description ≠ some x
  · simp [set_description, h]
  · push_neg at h
    simp [set_description, h]

theorem set_snat_ready (n : String) (s : Option String) (v : VSState) :
    snatReady s ((set_snat n s v).2.1) := by
  constructor
  · intro hs; subst hs
    by_cases h : v.snat_type ≠ "SRC_TRANS_NONE"
    · simp [set_snat, h]
    · push_neg at h
      simp [set_snat, h]
  · intro hs; subst hs
    by_cases h : v.snat_type ≠ "SRC_TRANS_AUTOMAP"
    · simp [set_snat, h]
    · push_neg at h
      simp [set_snat, h]

theorem to_add_list_names (pl C : List String) :
    (to_add_list pl C).map ProfileEntry.profile_name
      = pl.filter (fun x => decide (¬ x ∈ C)) := by
  rw [to_add_list, List.map_map]
  exact List.map_id _

theorem to_del_list_names (pl C : List String) :
    (to_del_list pl C).map ProfileEntry.profile_name
      = C.filter (fun x => decide (¬ x ∈ pl ∧ x ≠ "/Common/tcp")) := by
  rw [to_del_list, List.map_map]
  exact List.map_id _

theorem mem_del_names (pl C : List String) (x : String) :
    x ∈ (to_del_list pl C).map ProfileEntry.profile_name
      ↔ (x ∈ C ∧ (x ∉ pl ∧ x ≠ "/Common/tcp")) := by
  rw [to_del_list_names, List.mem_filter]
  simp

theorem mem_add_names (pl C : List String) (x : String) :
    x ∈ (to_add_list pl C).map ProfileEntry.profile_name ↔ (x ∈ pl ∧ x ∉ C) := by
  rw [to_add_list_names, List.mem_filter]
  simp

theorem del_nil_sup {pl C : List String} (hR : to_del_list pl C = []) :
    ∀ y ∈ C, y ∈ pl ∨ y = "/Common/tcp" := by
  intro y hy
  have := List.filter_eq_nil_iff.1 (List.map_eq_nil_iff.1 hR) y hy
  simp at this
  tauto

theorem add_nil_sub {pl C : List String} (hA : to_add_list pl C = []) :
    ∀ y ∈ pl, y ∈ C := by
  intro y hy
  have := List.filter_eq_nil_iff.1 (List.map_eq_nil_iff.1 hA) y hy
  simpa using this

/-- Membership in the profile set after one application of
`set_profiles`: the desired profiles plus the protected base when it was
already attached, and nothing else of the old set. -/
theorem set_profiles_mem_post (n : String) (pl : List String) (v : VSState) (x : String) :
    x ∈ ((set_profiles n (some pl) v).2.1).profiles ↔
      ((x ∈ v.profiles ∧ (x ∈ pl ∨ x = "/Common/tcp")) ∨ (x ∈ pl ∧ x ∉ v.profiles)) := by
  by_cases hR : to_del_list pl v.profiles = [] <;> by_cases hA : to_add_list pl v.profiles = []
  · have hR' := del_nil_sup hR
    have hA' := add_nil_sub hA
    simp only [set_profiles, hR, hA, ite_true]
    constructor
    · intro h; exact Or.inl ⟨h, hR' x h⟩
    · rintro (⟨h, _⟩ | ⟨h1, h2⟩)
      · exact h
      · exact absurd (hA' x h1) h2
  · have hR' := del_nil_sup hR
    simp only [set_profiles, hR, hA, ite_true, ite_false]
    rw [List.mem_append, mem_add_names]
    constructor
    · rintro (h | ⟨h1, h2⟩)
      · exact Or.inl ⟨h, hR' x h⟩
      · exact Or.inr ⟨h1, h2⟩
    · rintro (⟨h, _⟩ | ⟨h1, h2⟩)
      · exact Or.inl h
      · exact Or.inr ⟨h1, h2⟩
  · have hA' := add_nil_sub hA
    simp only [set_profiles, hR, hA, ite_true, ite_false]
    rw [List.mem_filter]
    simp only [decide_eq_true_eq, mem_del_names]
    constructor
    · rintro ⟨hC, hnot⟩
      refine Or.inl ⟨hC, ?_⟩
      by_cases hpl : x ∈ pl
      · exact Or.inl hpl
      · by_cases htcp : x = "/Common/tcp"
        · exact Or.inr htcp
        · exact absurd ⟨hC, hpl, htcp⟩ hnot
    · rintro (⟨hC, hor⟩ | ⟨h1, h2⟩)
      · refine ⟨hC, ?_⟩
        rintro ⟨_, hnpl, htcp⟩
        rcases hor with h | h
        · exact hnpl h
        · exact htcp h
      · exact absurd (hA' x h1) h2
  · simp only [set_profiles, hR, hA, ite_true, ite_false]
    rw [List.mem_append, List.mem_filter, mem_add_names]
    simp only [decide_eq_true_eq, mem_del_names]
    constructor
    · rintro (⟨hC, hnot⟩ | ⟨h1, h2⟩)
      · refine Or.inl ⟨hC, ?_⟩
        by_cases hpl : x ∈ pl
        · exact Or.inl hpl
        · by_cases htcp : x = "/Common/tcp"
          · exact Or.inr htcp
          · exact absurd ⟨hC, hpl, htcp⟩ hnot
      · exact Or.inr ⟨h1, h2⟩
    · rintro (⟨hC, hor⟩ | ⟨h1, h2⟩)
      · refine Or.inl ⟨hC, ?_⟩
        rintro ⟨_, hnpl, htcp⟩
        rcases hor with h | h
        · exact hnpl h
        · exact htcp h
      · exact Or.inr ⟨h1, h2⟩

theorem set_profiles_ready (n : String) (ap : Option (List String)) (v : VSState) :
    profilesReady ap ((set_profiles n ap v).2.1) := by
  intro pl hpl; subst hpl
  constructor
  · intro x hx
    rw [set_profiles_mem_post]
    by_cases hxc : x ∈ v.profiles
    · exact Or.inl ⟨hxc, Or.inl hx⟩
    · exact Or.inr ⟨hx, hxc⟩
  · intro x hx
    rw [set_profiles_mem_post] at hx
    rcases hx with ⟨_, h⟩ | ⟨h, _⟩
    · exact h
    · exact Or.inl h

theorem set_destination_noop (n : String) {d : Option String} {q : Option Int} {v : VSState}
    (h : destReady d q v) :
    set_destination n d q v = (false, v, [RemoteCall.getDestinationV2 n]) := by
  cases d with
  | none => rfl
  | some dv =>
    cases q with
    | none => rfl
    | some pv =>
      obtain ⟨e1, e2⟩ := h dv pv rfl rfl
      simp [set_destination, e1, e2]

theorem set_pool_noop (n : String) {q : Option String} {v : VSState} (h : poolReady q v) :
    set_pool n q v = (false, v, [RemoteCall.getDefaultPoolName n]) := by
  cases q with
  | none => rfl
  | some x =>
    have e := h x rfl
    simp [set_pool, e]

theorem set_description_noop (n : String) {q : Option String} {v : VSState} (h : descReady q v) :
    set_description n q v = (false, v, [RemoteCall.getDescription n]) := by
  cases q with
  | none => rfl
  | some x =>
    have e := h x rfl
    simp [set_description, e]

theorem set_snat_noop (n : String) {s : Option String} {v : VSState} (h : snatReady s v) :
    set_snat n s v = (false, v, [RemoteCall.getSourceAddressTranslationType n]) := by
  cases s with
  | none => rfl
  | some x =>
    by_cases h1 : x = "None"
    · subst h1
      have e := h.1 rfl
      simp [set_snat, e]
    · by_cases h2 : x = "Automap"
      · subst h2
        have e := h.2 rfl
        simp [set_snat, e]
      · simp [set_snat, h1, h2]

theorem set_profiles_noop (n : String) {ap : Option (List String)} {v : VSState}
    (h : profilesReady ap v) :
    (set_profiles n ap v).1 = false ∧ (set_profiles n ap v).2.1 = v := by
  cases ap with
  | none => exact ⟨rfl, rfl⟩
  | some pl =>
    obtain ⟨hsub, hsup⟩ := h pl rfl
    have hA : to_add_list pl v.profiles = [] := by
      rw [to_add_list, List.map_eq_nil_iff, List.filter_eq_nil_iff]
      intro a ha
      simp only [decide_eq_true_eq, not_not]
      exact hsub a ha
    have hR : to_del_list pl v.profiles = [] := by
      rw [to_del_list, List.map_eq_nil_iff, List.filter_eq_nil_iff]
      intro a ha
      simp only [decide_eq_true_eq]
      rintro ⟨hnpl, htcp⟩
      rcases hsup a ha with hc | hc
      · exact hnpl hc
      · exact htcp hc
    simp [set_profiles, hA, hR]

theorem destReady_congr {d : Option String} {q : Option Int} {v w : VSState}
    (ha : w.address = v.address) (hp : w.port = v.port) (h : destReady d q v) :
    destReady d q w := by
  intro dv pv h1 h2
  obtain ⟨e1, e2⟩ := h dv pv h1 h2
  exact ⟨ha.trans e1, hp.trans e2⟩

theorem poolReady_congr {q : Option String} {v w : VSState}
    (hp : w.pool = v.pool) (h : poolReady q v) : poolReady q w := by
  intro x hx
  exact hp.trans (h x hx)

theorem descReady_congr {q : Option String} {v w : VSState}
    (hd : w.description = v.description) (h : descReady q v) : descReady q w := by
  intro x hx
  exact hd.trans (h x hx)

theorem snatReady_congr {s : Option String} {v w : VSState}
    (hs : w.snat_type = v.snat_type) (h : snatReady s v) : snatReady s w :=
  ⟨fun hx => hs.trans (h.1 hx), fun hx => hs.trans (h.2 hx)⟩

theorem profilesReady_congr {ap : Option (List String)} {v w : VSState}
    (hp : w.profiles = v.profiles) (h : profilesReady ap v) : profilesReady ap w := by
  intro pl hpl
  obtain ⟨h1, h2⟩ := h pl hpl
  rw [hp]
  exact ⟨h1, h2⟩

theorem runModule_present_exists_vs (p : Params) (w : VSState)
    (hstate : p.state = "present") (hchk : p.check_mode = false) :
    (runModule p (some w) noFaults).2.vs = some (updateChain p w) := by
  cases hap : p.all_profiles with
  | none =>
    simp [runModule, main, mainTry, portGuard_eq_false, hstate, hchk, vs_existsS,
      api_get_object_status, pushCall, noFaults, updatePath, set_destinationS, set_poolS,
      set_descriptionS, set_snatS, set_profilesS, liftReconciler, updateChain, hap,
      fq_list_names, set_profiles]
  | some pls =>
    simp [runModule, main, mainTry, portGuard_eq_false, hstate, hchk, vs_existsS,
      api_get_object_status, pushCall, noFaults, updatePath, set_destinationS, set_poolS,
      set_descriptionS, set_snatS, set_profilesS, liftReconciler, updateChain, hap,
      fq_list_names, set_profiles]

theorem runModule_present_create_vs (p : Params)
    (hstate : p.state = "present") (hchk : p.check_mode = false)
    (hfal : (pyFalsyStr p.destination || pyFalsyInt p.port) = false) :
    (runModule p none noFaults).2.vs = some (createChain p) := by
  cases hap : p.all_profiles with
  | none =>
    simp [runModule, main, mainTry, portGuard_eq_false, hstate, hchk, vs_existsS,
      api_get_object_status, pushCall, noFaults, notFound_classified, hfal, vs_createS,
      api_create, createChain, set_destinationS, set_poolS, set_descriptionS, set_snatS,
      set_profilesS, liftReconciler, hap, fq_list_names, set_profiles]
  | some pls =>
    simp [runModule, main, mainTry, portGuard_eq_false, hstate, hchk, vs_existsS,
      api_get_object_status, pushCall, noFaults, notFound_classified, hfal, vs_createS,
      api_create, createChain, set_destinationS, set_poolS, set_descriptionS, set_snatS,
      set_profilesS, liftReconciler, hap, fq_list_names, set_profiles]

/-- A live present-state run against a resource every reconciler is
already converged on reports `changed=false`. -/
theorem run_present_noop (p : Params) (W : VSState)
    (hstate : p.state = "present") (hchk : p.check_mode = false)
    (h1 : destReady (fq_name p.partition p.destination) p.port W)
    (h2 : poolReady (fq_name p.partition p.pool) W)
    (h3 : descReady p.description W)
    (h4 : snatReady p.snat W)
    (h5 : profilesReady (fq_list_names p.partition p.all_profiles) W) :
    (runModule p (some W) noFaults).1 = ModuleResult.exitJson false none := by
  have n1 := set_destination_noop (fq_name_str p.partition p.name) h1
  have n2 := set_pool_noop (fq_name_str p.partition p.name) h2
  have n3 := set_description_noop (fq_name_str p.partition p.name) h3
  have n4 := set_snat_noop (fq_name_str p.partition p.name) h4
  have n5 := set_profiles_noop (fq_name_str p.partition p.name) h5
  cases hap : fq_list_names p.partition p.all_profiles with
  | none =>
    simp [runModule, main, mainTry, portGuard_eq_false, hstate, hchk, vs_existsS,
      api_get_object_status, pushCall, noFaults, updatePath, set_destinationS, set_poolS,
      set_descriptionS, set_snatS, set_profilesS, liftReconciler, hap,
      n1, n2, n3, n4]
  | some pls =>
    rw [hap] at n5
    simp [runModule, main, mainTry, portGuard_eq_false, hstate, hchk, vs_existsS,
      api_get_object_status, pushCall, noFaults, updatePath, set_destinationS, set_poolS,
      set_descriptionS, set_snatS, set_profilesS, liftReconciler, hap,
      n1, n2, n3, n4, n5.1, n5.2]

/-- A live absent-state run leaves no resource behind, and a second
absent-state run on the result reports `changed=false`. -/
theorem run_absent_twice (p : Params) (s : Option VSState)
    (hstate : p.state = "absent") (hchk : p.check_mode = false) :
    (runModule p ((runModule p s noFaults).2.vs) noFaults).1
      = ModuleResult.exitJson false none := by
  have hvs : (runModule p s noFaults).2.vs = none := by
    cases s with
    | none =>
      simp [runModule, main, mainTry, portGuard_eq_false, hstate, hchk, vs_existsS,
        api_get_object_status, pushCall, noFaults, notFound_classified]
    | some w =>
      simp [runModule, main, mainTry, portGuard_eq_false, hstate, hchk, vs_existsS,
        api_get_object_status, pushCall, noFaults, vs_removeS]
  rw [hvs]
  simp [runModule, main, mainTry, portGuard_eq_false, hstate, hchk, vs_existsS,
    api_get_object_status, pushCall, noFaults, notFound_classified]

/-- A live enabled/disabled-state run performs no action and reports
`changed=false` against any remote state. -/
theorem run_enabled_noop (p : Params) (s : Option VSState)
    (hstate : p.state = "disabled" ∨ p.state = "enabled") (hchk : p.check_mode = false) :
    (runModule p s noFaults).1 = ModuleResult.exitJson false none := by
  have habs : ¬ p.state = "absent" := by rcases hstate with h | h <;> simp [h]
  have hpres : ¬ p.state = "present" := by rcases hstate with h | h <;> simp [h]
  simp [runModule, main, mainTry, portGuard_eq_false, habs, hpres, hstate, hchk]

theorem updateChain_ready (p : Params) (w : VSState) :
    destReady (fq_name p.partition p.destination) p.port (updateChain p w) ∧
    poolReady (fq_name p.partition p.pool) (updateChain p w) ∧
    descReady p.description (updateChain p w) ∧
    snatReady p.snat (updateChain p w) ∧
    profilesReady (fq_list_names p.partition p.all_profiles) (updateChain p w) := by
  simp only [updateChain]
  set nm := fq_name_str p.partition p.name with hnm
  set v1 := (set_destination nm (fq_name p.partition p.destination) p.port w).2.1 with hv1
  set v2 := (set_pool nm (fq_name p.partition p.pool) v1).2.1 with hv2
  set v3 := (set_description nm p.description v2).2.1 with hv3
  set v4 := (set_snat nm p.snat v3).2.1 with hv4
  have f2 := set_pool_frame nm (fq_name p.partition p.pool) v1
  have f3 := set_description_frame nm p.description v2
  have f4 := set_snat_frame nm p.snat v3
  have f5 := set_profiles_frame nm (fq_list_names p.partition p.all_profiles) v4
  refine ⟨?_, ?_, ?_, ?_, set_profiles_ready nm _ v4⟩
  · have hbase : destReady (fq_name p.partition p.destination) p.port v1 := by
      rw [hv1]; exact set_destination_ready nm _ _ w
    refine destReady_congr ?_ ?_ hbase
    · rw [f5.1, hv4, f4.1, hv3, f3.1, hv2, f2.1]
    · rw [f5.2.1, hv4, f4.2.1, hv3, f3.2.1, hv2, f2.2.1]
  · have hbase : poolReady (fq_name p.partition p.pool) v2 := by
      rw [hv2]; exact set_pool_ready nm _ v1
    refine poolReady_congr ?_ hbase
    rw [f5.2.2.1, hv4, f4.2.2.1, hv3, f3.2.2.1]
  · have hbase : descReady p.description v3 := by
      rw [hv3]; exact set_description_ready nm _ v2
    refine descReady_congr ?_ hbase
    rw [f5.2.2.2.1, hv4, f4.2.2.2.1]
  · have hbase : snatReady p.snat v4 := by
      rw [hv4]; exact set_snat_ready nm _ v3
    refine snatReady_congr ?_ hbase
    rw [f5.2.2.2.2]

theorem createChain_ready (p : Params) :
    destReady (fq_name p.partition p.destination) p.port (createChain p) ∧
    poolReady (fq_name p.partition p.pool) (createChain p) ∧
    descReady p.description (createChain p) ∧
    snatReady p.snat (createChain p) ∧
    profilesReady (fq_list_names p.partition p.all_profiles) (createChain p) := by
  simp only [createChain]
  set nm := fq_name_str p.partition p.name with hnm
  set c0 := createdVS p.partition (p.destination.getD "") (p.port.getD 0)
    (fq_name p.partition p.pool) with hc0
  set u1 := (set_profiles nm (fq_list_names p.partition p.all_profiles) c0).2.1 with hu1
  set u2 := (set_snat nm p.snat u1).2.1 with hu2
  have g1 := set_profiles_frame nm (fq_list_names p.partition p.all_profiles) c0
  have g2 := set_snat_frame nm p.snat u1
  have g3 := set_description_frame nm p.description u2
  have hdest : destReady (fq_name p.partition p.destination) p.port c0 := by
    intro dv pv hd hp
    cases hd0 : p.destination with
    | none => rw [hd0] at hd; exact absurd hd (by simp [fq_name])
    | some d0 =>
      rw [hd0] at hd
      simp only [fq_name, Option.some.injEq] at hd
      constructor
      · rw [hc0]
        simp [createdVS, hd0, hd]
      · rw [hc0]
        simp [createdVS, hp]
  have hpool : poolReady (fq_name p.partition p.pool) c0 := by
    intro q hq
    rw [hc0]
    simp [createdVS, hq]
  refine ⟨?_, ?_, ?_, ?_, ?_⟩
  · refine destReady_congr ?_ ?_ hdest
    · rw [g3.1, hu2, g2.1, hu1, g1.1]
    · rw [g3.2.1, hu2, g2.2.1, hu1, g1.2.1]
  · refine poolReady_congr ?_ hpool
    rw [g3.2.2.1, hu2, g2.2.2.1, hu1, g1.2.2.1]
  · exact set_description_ready nm _ u2
  · have hbase : snatReady p.snat u2 := by
      rw [hu2]; exact set_snat_ready nm _ u1
    refine snatReady_congr ?_ hbase
    rw [g3.2.2.2.1]
  · have hbase : profilesReady (fq_list_names p.partition p.all_profiles) u1 := by
      rw [hu1]; exact set_profiles_ready nm _ c0
    refine profilesReady_congr ?_ hbase
    rw [g3.2.2.2.2, hu2, g2.2.2.2.2]

/-- **C7.** Applying the same live reconciliation twice in succession,
with no concurrent actor between the runs, yields `changed=false` on the
second run: the first run converges the remote state, so every reconciler
in the second run finds current equal to desired and issues no setter.
(The hypothesis that the first run exits successfully excludes the
validation failure of a create with missing destination or port.) -/
theorem c7_idempotent (p : Params) (s : Option VSState)
    (hchk : p.check_mode = false)
    (hstate : p.state = "present" ∨ p.state = "absent" ∨ p.state = "enabled"
      ∨ p.state = "disabled")
    (hok : ∃ ch d, (runModule p s noFaults).1 = ModuleResult.exitJson ch d) :
    (runModule p ((runModule p s noFaults).2.vs) noFaults).1
      = ModuleResult.exitJson false none := by
  rcases hstate with hpres | habs | hen | hdis
  · cases s with
    | some w =>
      rw [runModule_present_exists_vs p w hpres hchk]
      obtain ⟨r1, r2, r3, r4, r5⟩ := updateChain_ready p w
      exact run_present_noop p (updateChain p w) hpres hchk r1 r2 r3 r4 r5
    | none =>
      by_cases hfal : (pyFalsyStr p.destination || pyFalsyInt p.port) = true
      · exfalso
        have hfail : (runModule p none noFaults).1
            = ModuleResult.failJson "both destination and port must be supplied to create a VS" := by
          simp [runModule, main, mainTry, portGuard_eq_false, hpres, vs_existsS,
            api_get_object_status, pushCall, noFaults, notFound_classified, hfal]
        obtain ⟨ch, d, hres⟩ := hok
        rw [hfail] at hres
        simp at hres
      · rw [Bool.not_eq_true] at hfal
        rw [runModule_present_create_vs p hpres hchk hfal]
        obtain ⟨r1, r2, r3, r4, r5⟩ := createChain_ready p
        exact run_present_noop p (createChain p) hpres hchk r1 r2 r3 r4 r5
  · exact run_absent_twice p s habs hchk
  · exact run_enabled_noop p _ (Or.inr hen) hchk
  · exact run_enabled_noop p _ (Or.inl hdis) hchk

theorem c7_idempotent_witness :
    (runModule c2Params ((runModule c2Params none noFaults).2.vs) noFaults).1
      = ModuleResult.exitJson false none :=
  c7_idempotent c2Params none rfl (Or.inl rfl) ⟨true, none, by decide⟩

theorem c9_pool_description_frame_witness :
    (set_pool "/Common/vs1" none vsFixture
      = (false, vsFixture, [RemoteCall.getDefaultPoolName "/Common/vs1"])) ∧
    ((set_pool "/Common/vs1" (some "/Common/pool2")
        { vsFixture with pool := some "/Common/p0" }).2.1.pool).isSome = true := by
  refine ⟨(c9_pool_description_frame "/Common/vs1" vsFixture).1, ?_⟩
  exact (c9_pool_description_frame "/Common/vs1"
    { vsFixture with pool := some "/Common/p0" }).2.2.2.2.1 (some "/Common/pool2") (by decide)

end BVS
